import Mathlib

/-!
Verification development for `applications/finetune-embedding/main.py`.

The file shallowly embeds the program's two components:

* the `StratifiedSampler` class (constructor, `gen_sample_array`, `__iter__`,
  `__len__`), translated directly from the source, with the external
  `sklearn.model_selection.StratifiedShuffleSplit` routine modelled from the
  specification (it is an external collaborator, not part of the repository
  sources), parameterised over the routine's random choices;

* the `objective` trial function and the module-level Optuna study driver,
  with the external collaborators (data loading, dataset/loader/model
  construction, the pytorch-lightning trainer, the Optuna study) represented
  as explicit fallible test doubles, and every observable effect of
  `objective` recorded in an event trace.

Machine integers are modelled as `Nat` (Python's `int(N / B)` on nonnegative
inputs is floor division, i.e. `Nat` division); Python floats appearing as
literal hyperparameter bounds are modelled as the exact rationals the source
literals denote; Python exceptions are modelled with `Except`.
-/

/-- One split produced by the external stratified shuffle split routine:
the pair `(train_index, test_index)` yielded by `s.split(X, y)`. -/
structure SSSplit where
  train_index : List Nat
  test_index : List Nat
deriving DecidableEq

/-- State stored by `StratifiedSampler.__init__`: `self.n_splits` and
`self.class_vector` (main.py lines 44-45). -/
structure StratifiedSampler where
  n_splits : Nat
  class_vector : List Int
deriving DecidableEq

/-- The constructor `StratifiedSampler.__init__(class_vector, batch_size)`:
stores `n_splits = int(class_vector.size(0) / batch_size)` (floor division for
nonnegative operands) and the class vector itself (main.py lines 35-45). -/
def StratifiedSampler.new (class_vector : List Int) (batch_size : Nat) :
    StratifiedSampler :=
  { n_splits := class_vector.length / batch_size, class_vector := class_vector }

/-- Taking the first element of the split generator and horizontally stacking
its two index halves: `train_index, test_index = next(s.split(X, y));
np.hstack([train_index, test_index])` (main.py lines 56-57). `none` models the
fault raised when the routine yields no split at all. -/
def firstSplitConcat : List SSSplit → Option (List Nat)
  | [] => none
  | sp :: _ => some (sp.train_index ++ sp.test_index)

/-- The method `StratifiedSampler.gen_sample_array` (main.py lines 47-57).
The external routine `StratifiedShuffleSplit(n_splits=self.n_splits,
test_size=0.5).split(X, y)` is abstracted as `split_routine`, a function of
the `n_splits` argument and the label vector `y`; the synthetic feature matrix
`X = torch.randn(N, 2)` is pure noise consumed only by the routine's
randomness and is absorbed into the abstraction. The sampler passes its stored
`n_splits` to the routine unguarded, takes the first yielded split and
concatenates its two halves. -/
def StratifiedSampler.gen_sample_array (s : StratifiedSampler)
    (split_routine : Nat → List Int → List SSSplit) : Option (List Nat) :=
  firstSplitConcat (split_routine s.n_splits s.class_vector)

/-- The method `StratifiedSampler.__iter__` returns (an iterator over) exactly
the array produced by `gen_sample_array` (main.py lines 59-60). -/
def StratifiedSampler.iterate (s : StratifiedSampler)
    (split_routine : Nat → List Int → List SSSplit) : Option (List Nat) :=
  s.gen_sample_array split_routine

/-- The method `StratifiedSampler.__len__`: `len(self.class_vector)`
(main.py lines 62-63). -/
def StratifiedSampler.len (s : StratifiedSampler) : Nat :=
  s.class_vector.length

/-- Modelled from the spec: the distinct class labels occurring in the label
vector, as used by the external stratified split routine (missing from src/:
`sklearn.model_selection.StratifiedShuffleSplit` groups samples by their
class label). -/
def classesOf (y : List Int) : List Int :=
  y.dedup

/-- Modelled from the spec: the positions in `y` holding class label `c`;
the external stratified routine partitions each such per-class index block
between the two halves of a split. -/
def classIndices (y : List Int) (c : Int) : List Nat :=
  (List.range y.length).filter fun i => y.get? i == some c

/-- Modelled from the spec: the random choices one split of the external
stratified shuffle split routine makes — a shuffle of each class's index
block and the per-class sizes of the primary (train-like) and secondary
(test-like) allocations. -/
structure SplitRNG where
  shuffled : Int → List Nat
  nAlloc : Int → Nat
  tAlloc : Int → Nat

/-- Modelled from the spec: validity of the random choices for label vector
`y` under a 50% hold-out fraction — each class's shuffle is a permutation of
that class's index block, the primary allocations across classes sum to
`⌊N/2⌋`, the secondary allocations sum to `⌈N/2⌉`, and no class is
over-allocated. -/
def ValidRNG (y : List Int) (r : SplitRNG) : Prop :=
  (∀ c ∈ classesOf y, (r.shuffled c).Perm (classIndices y c)) ∧
  ((classesOf y).map r.nAlloc).sum = y.length / 2 ∧
  ((classesOf y).map r.tAlloc).sum = (y.length + 1) / 2 ∧
  ∀ c ∈ classesOf y, r.nAlloc c + r.tAlloc c ≤ (classIndices y c).length

instance (y : List Int) (r : SplitRNG) : Decidable (ValidRNG y r) := by
  unfold ValidRNG
  infer_instance

/-- Modelled from the spec: the primary (train-like) half of one split — the
first `nAlloc c` shuffled indices of each class, concatenated over classes. -/
def firstTrain (y : List Int) (r : SplitRNG) : List Nat :=
  (classesOf y).flatMap fun c => (r.shuffled c).take (r.nAlloc c)

/-- Modelled from the spec: the secondary (test-like) half of one split — the
next `tAlloc c` shuffled indices of each class, concatenated over classes. -/
def firstTest (y : List Int) (r : SplitRNG) : List Nat :=
  (classesOf y).flatMap fun c => ((r.shuffled c).drop (r.nAlloc c)).take (r.tAlloc c)

lemma mem_classIndices {y : List Int} {c : Int} {i : Nat} :
    i ∈ classIndices y c ↔ i < y.length ∧ y.get? i = some c := by
  simp [classIndices, List.mem_filter, List.mem_range]

lemma classIndices_nodup (y : List Int) (c : Int) : (classIndices y c).Nodup :=
  (List.nodup_range _).filter _

lemma classIndices_flatMap_perm (y : List Int) :
    ((classesOf y).flatMap (classIndices y)).Perm (List.range y.length) := by
  have hnodup : ((classesOf y).flatMap (classIndices y)).Nodup := by
    rw [List.nodup_flatMap]
    constructor
    · exact fun c _ => classIndices_nodup y c
    · have hclasses : (classesOf y).Nodup := y.nodup_dedup
      refine hclasses.imp ?_
      intro c₁ c₂ hne
      intro i h₁ h₂
      rcases mem_classIndices.mp h₁ with ⟨_, e₁⟩
      rcases mem_classIndices.mp h₂ with ⟨_, e₂⟩
      exact hne (Option.some.inj (e₁ ▸ e₂ ▸ rfl))
  refine (List.perm_ext_iff_of_nodup hnodup (List.nodup_range _)).mpr ?_
  intro i
  simp only [List.mem_flatMap, List.mem_range]
  constructor
  · rintro ⟨c, _, hmem⟩
    exact (mem_classIndices.mp hmem).1
  · intro hi
    refine ⟨y.get ⟨i, hi⟩, ?_, ?_⟩
    · exact List.mem_dedup.mpr (List.get_mem y i hi)
    · exact mem_classIndices.mpr ⟨hi, List.get?_eq_get hi⟩

lemma sum_map_add_distrib (cs : List Int) (f g : Int → Nat) :
    (cs.map fun c => f c + g c).sum = (cs.map f).sum + (cs.map g).sum := by
  induction cs with
  | nil => simp
  | cons a l ih => simp [ih]; omega

lemma sum_map_mono (cs : List Int) (f g : Int → Nat)
    (hle : ∀ c ∈ cs, f c ≤ g c) : (cs.map f).sum ≤ (cs.map g).sum := by
  induction cs with
  | nil => simp
  | cons a l ih =>
    simp only [List.map_cons, List.sum_cons]
    have h₁ := hle a (List.mem_cons_self a l)
    have h₂ := ih fun c hc => hle c (List.mem_cons_of_mem a hc)
    omega

lemma forced_pointwise_eq (cs : List Int) (f g : Int → Nat)
    (hle : ∀ c ∈ cs, f c ≤ g c)
    (hsum : (cs.map g).sum ≤ (cs.map f).sum) :
    ∀ c ∈ cs, f c = g c := by
  induction cs with
  | nil => simp
  | cons a l ih =>
    have hfa := hle a (List.mem_cons_self a l)
    have htail : (l.map g).sum ≤ (l.map f).sum := by
      have h₂ := sum_map_mono l f g fun c hc => hle c (List.mem_cons_of_mem a hc)
      simp only [List.map_cons, List.sum_cons] at hsum
      omega
    have hha : f a = g a := by
      have h₂ := sum_map_mono l f g fun c hc => hle c (List.mem_cons_of_mem a hc)
      simp only [List.map_cons, List.sum_cons] at hsum
      omega
    intro c hc
    rcases List.mem_cons.mp hc with rfl | hc'
    · exact hha
    · exact ih (fun c' hc' => hle c' (List.mem_cons_of_mem a hc')) htail c hc'

lemma classIndices_length_sum (y : List Int) :
    ((classesOf y).map fun c => (classIndices y c).length).sum = y.length := by
  have h := (classIndices_flatMap_perm y).length_eq
  rw [List.length_flatMap] at h
  simpa using h

/-- Under valid random choices, every class's allocation is exhaustive:
the primary and secondary allocations together take the whole class block. -/
lemma valid_alloc_exhaustive {y : List Int} {r : SplitRNG} (h : ValidRNG y r) :
    ∀ c ∈ classesOf y, r.nAlloc c + r.tAlloc c = (classIndices y c).length := by
  obtain ⟨-, hn, ht, hub⟩ := h
  refine forced_pointwise_eq _ _ _ hub ?_
  rw [sum_map_add_distrib, hn, ht, classIndices_length_sum]
  omega

/-- Core permutation content behind `C1`: concatenating the two halves of a
valid stratified split yields a permutation of all positions `[0, N)`. -/
lemma firstTrain_append_firstTest_perm {y : List Int} {r : SplitRNG}
    (h : ValidRNG y r) :
    (firstTrain y r ++ firstTest y r).Perm (List.range y.length) := by
  have hexh := valid_alloc_exhaustive h
  have hperm := h.1
  have h1 : (firstTrain y r ++ firstTest y r).Perm
      ((classesOf y).flatMap fun c =>
        (r.shuffled c).take (r.nAlloc c) ++
          ((r.shuffled c).drop (r.nAlloc c)).take (r.tAlloc c)) :=
    List.flatMap_append_perm _ _ _
  have h2 : ((classesOf y).flatMap fun c =>
        (r.shuffled c).take (r.nAlloc c) ++
          ((r.shuffled c).drop (r.nAlloc c)).take (r.tAlloc c)) =
      (classesOf y).flatMap fun c => r.shuffled c := by
    refine List.flatMap_congr ?_
    intro c hc
    rw [← List.take_add]
    refine List.take_of_length_le ?_
    rw [(hperm c hc).length_eq, hexh c hc]
  rw [h2] at h1
  have h3 : ((classesOf y).flatMap fun c => r.shuffled c).Perm
      ((classesOf y).flatMap (classIndices y)) :=
    List.Perm.flatMap_left _ fun c hc => hperm c hc
  exact h1.trans (h3.trans (classIndices_flatMap_perm y))

/-- Example class vector from the spec's end-to-end scenario:
`[0,0,0,0,1,1,1,1]` (N = 8). -/
def exY : List Int :=
  [0, 0, 0, 0, 1, 1, 1, 1]

/-- Example random choices for `exY`: identity per-class shuffles with a 2/2
allocation of each four-element class. -/
def exRNG : SplitRNG :=
  { shuffled := fun c => if c = 0 then [0, 1, 2, 3] else [4, 5, 6, 7]
    nAlloc := fun _ => 2
    tAlloc := fun _ => 2 }

/-- C1: for every class-label vector of length N and batch size B with
`n_splits = ⌊N / B⌋ ≥ 2`, each call to the sampler's `iterate()` (backed by
`gen_sample_array`) returns the concatenation of the first split's two index
halves, and that sequence is a permutation of `[0, N)`: every index appears
exactly once. The external split routine is spec-modelled: its first split is
any pair of halves built from valid random choices (`ValidRNG`), possibly
re-shuffled within each half. -/
theorem C1_iterate_permutation (y : List Int) (B : Nat)
    (routine : Nat → List Int → List SSSplit) (r : SplitRNG)
    (trainOut testOut : List Nat) (rest : List SSSplit)
    (_hs : 2 ≤ (StratifiedSampler.new y B).n_splits)
    (hr : ValidRNG y r)
    (htr : trainOut.Perm (firstTrain y r))
    (hte : testOut.Perm (firstTest y r))
    (hroutine : routine (StratifiedSampler.new y B).n_splits y =
      { train_index := trainOut, test_index := testOut } :: rest) :
    (StratifiedSampler.new y B).iterate routine = some (trainOut ++ testOut) ∧
    (trainOut ++ testOut).Perm (List.range y.length) := by
  constructor
  · show firstSplitConcat (routine (StratifiedSampler.new y B).n_splits y) = _
    rw [hroutine]
    rfl
  · exact (htr.append hte).trans (firstTrain_append_firstTest_perm hr)

/-- Witness for C1 at the spec's end-to-end scenario: `exY` with
`batch_size = 2` and identity shuffles. -/
theorem C1_witness :
    (StratifiedSampler.new exY 2).iterate
        (fun _ _ => [{ train_index := [0, 1, 4, 5], test_index := [2, 3, 6, 7] }]) =
      some ([0, 1, 4, 5] ++ [2, 3, 6, 7]) ∧
    (([0, 1, 4, 5] ++ [2, 3, 6, 7]) : List Nat).Perm (List.range exY.length) :=
  C1_iterate_permutation exY 2
    (fun _ _ => [{ train_index := [0, 1, 4, 5], test_index := [2, 3, 6, 7] }])
    exRNG [0, 1, 4, 5] [2, 3, 6, 7] []
    (by decide) (by decide) (by decide) (by decide) rfl

/-- C2: the constructor stores `n_splits = ⌊N / B⌋` for every class vector and
positive batch size; in particular `N = 8`, `B = 2` gives `n_splits = 4`. -/
theorem C2_constructor_n_splits (y : List Int) (B : Nat) (_hB : 0 < B) :
    (StratifiedSampler.new y B).n_splits = y.length / B ∧
    (StratifiedSampler.new exY 2).n_splits = 4 :=
  ⟨rfl, rfl⟩

/-- Witness for C2 at the end-to-end scenario values. -/
theorem C2_witness :
    (StratifiedSampler.new exY 2).n_splits = exY.length / 2 ∧
    (StratifiedSampler.new exY 2).n_splits = 4 :=
  C2_constructor_n_splits exY 2 (by decide)

/-- C3: `__len__` returns the number of labels N for every class vector and
batch size, and is unchanged by any value of the internal `n_splits` state. -/
theorem C3_len_returns_label_count (y : List Int) (B n : Nat) :
    (StratifiedSampler.new y B).len = y.length ∧
    ({ StratifiedSampler.new y B with n_splits := n }).len = y.length :=
  ⟨rfl, rfl⟩

/-- C4: each call to `iterate()` uses only the first split produced by the
routine — whenever the routine's output at the sampler's stored `n_splits`
begins with split `sp`, the result is exactly `sp`'s primary half concatenated
before its secondary half, with no interleaving and no dependence on the
remaining splits. -/
theorem C4_first_split_primary_before_secondary (s : StratifiedSampler)
    (routine : Nat → List Int → List SSSplit) (sp : SSSplit)
    (rest : List SSSplit)
    (h : routine s.n_splits s.class_vector = sp :: rest) :
    s.iterate routine = some (sp.train_index ++ sp.test_index) := by
  show firstSplitConcat (routine s.n_splits s.class_vector) = _
  rw [h]
  rfl

/-- Witness for C4 on a two-element sampler. -/
theorem C4_witness :
    (StratifiedSampler.new [0, 0] 1).iterate
        (fun _ _ => [{ train_index := [0], test_index := [1] }]) =
      some ([0] ++ [1]) :=
  C4_first_split_primary_before_secondary (StratifiedSampler.new [0, 0] 1)
    (fun _ _ => [{ train_index := [0], test_index := [1] }])
    { train_index := [0], test_index := [1] } [] rfl

/-- C9: for `N < 2 * B` (so `⌊N / B⌋` is 0 or 1) construction still succeeds
with the degenerate `n_splits` stored, `iterate()` hands that value to the
split routine unguarded, and the sampler adds no error and no fallback of its
own: its result is whatever first split the routine yields, `none` (the
collaborator's fault propagating) when the routine yields no split. -/
theorem C9_degenerate_n_splits_unguarded (y : List Int) (B : Nat)
    (routine : Nat → List Int → List SSSplit)
    (hB : 0 < B) (hN : y.length < 2 * B) :
    (StratifiedSampler.new y B).n_splits = y.length / B ∧
    (StratifiedSampler.new y B).n_splits ≤ 1 ∧
    (StratifiedSampler.new y B).iterate routine =
      firstSplitConcat (routine (y.length / B) y) ∧
    (routine (y.length / B) y = [] →
      (StratifiedSampler.new y B).iterate routine = none) := by
  refine ⟨rfl, ?_, rfl, ?_⟩
  · have hlt : y.length / B < 2 := (Nat.div_lt_iff_lt_mul hB).mpr (by omega)
    show y.length / B ≤ 1
    omega
  · intro h
    show firstSplitConcat (routine (StratifiedSampler.new y B).n_splits y) = none
    rw [show (StratifiedSampler.new y B).n_splits = y.length / B from rfl, h]
    rfl

/-- Python exceptions are modelled as string-valued faults. -/
abbrev Fault := String

/-- A hyperparameter value as it appears in printed/logged dictionaries:
an integer or a (rational-modelled) float. -/
inductive HPV where
  | n (v : Nat)
  | q (v : ℚ)
deriving DecidableEq

/-- The Optuna trial object consumed by `objective`: a test double answering
the three suggestion queries (main.py lines 70-74). -/
structure Trial where
  suggest_int : String → Nat → Nat → Bool → Nat
  suggest_categorical : String → List Nat → Nat
  suggest_loguniform : String → ℚ → ℚ → ℚ

/-- The nine-tuple returned by the external `load_and_split_data()`
(main.py lines 86-96); data frames are opaque handles, targets are the
integer label vectors. -/
structure LoadedData where
  train_df1 : Nat
  val_df1 : Nat
  test_df1 : Nat
  train_df2 : Nat
  val_df2 : Nat
  test_df2 : Nat
  train_target : List Int
  val_target : List Int
  test_target : List Int
deriving DecidableEq

/-- One observable effect of `objective`, in program order: the three
hyperparameter suggestions, the printed hyperparameter dictionary, each
collaborator invocation with the arguments the source passes, the logged
hyperparameter mapping, and the printed key list of the first test result. -/
inductive Event where
  | suggestIntEv (name : String) (low high : Nat) (log : Bool) (result : Nat)
  | suggestCatEv (name : String) (choices : List Nat) (result : Nat)
  | suggestFloatEv (name : String) (low high : ℚ) (result : ℚ)
  | printDict (d : List (String × HPV))
  | loadDataEv
  | mkDatasetEv (df1 df2 : Nat) (target : List Int)
  | mkLoaderEv (dataset batch_size : Nat) (sampler : Option StratifiedSampler)
  | mkModelEv (embedding_size n_dims : Nat) (dropout_fraction lr : ℚ)
  | mkCheckpointEv (monitor : String) (save_top_k : Nat) (mode : String)
  | mkLoggerEv (dir name : String)
  | logHyperparamsEv (d : List (String × HPV))
  | fitEv (max_epochs model train_loader val_loader : Nat)
  | testEv (model test_loader : Nat)
  | printKeysEv (ks : List String)
deriving DecidableEq

/-- The external collaborators `objective` invokes, as fallible test doubles:
data loading, `EmbeddingDataset` construction, `DataLoader` construction,
`SimilarityModel` construction, `trainer.fit` (carrying the trainer's
`max_epochs` configuration) and `trainer.test` (returning the list of metric
mappings). -/
structure Collab where
  load_and_split_data : Except Fault LoadedData
  embedding_dataset : Nat → Nat → List Int → Except Fault Nat
  data_loader : Nat → Nat → Option StratifiedSampler → Except Fault Nat
  similarity_model : Nat → Nat → ℚ → ℚ → Except Fault Nat
  fit : Nat → Nat → Nat → Nat → Except Fault Unit
  test : Nat → Nat → Except Fault (List (List (String × ℚ)))

/-- Sequencing of one fallible collaborator call: the call's event is
recorded, a fault short-circuits (uncaught, as in the source, which has no
try/except), success continues with the remaining computation. -/
def step {α β : Type} (ev : Event) (r : Except Fault α)
    (k : α → Except Fault β × List Event) : Except Fault β × List Event :=
  match r with
  | .error f => (.error f, [ev])
  | .ok a => ((k a).1, ev :: (k a).2)

/-- The trial function `objective(trial)` (main.py lines 66-158), translated
step by step: fix `embedding_size = 1536` and `dropout_fraction = 0.5`,
sample `n_dims` (log-uniform integer in `[1536 // 2, 1536 * 3]`),
`batch_size` (categorical over `[32, 64, 128]`) and `lr` (log-uniform in
`[1e-5, 1e-3]`); print the sampled dictionary; load and split the data; build
the three datasets and loaders (the training loader carrying a
`StratifiedSampler` over the training targets); build the model; create the
checkpoint callback and TensorBoard logger; log the five hyperparameters;
fit once with `max_epochs = 400`; test once; print the first result's keys
and return its `test_f1` entry. Returns the result (or the first uncaught
fault) together with the trace of observable effects. -/
def objective (t : Trial) (c : Collab) : Except Fault ℚ × List Event :=
  let embedding_size : Nat := 1536
  let dropout_fraction : ℚ := 1 / 2
  let n_dims := t.suggest_int "n_dims" (embedding_size / 2) (embedding_size * 3) true
  let batch_size := t.suggest_categorical "batch_size" [32, 64, 128]
  let lr := t.suggest_loguniform "lr" (1 / 100000) (1 / 1000)
  let name := "similarity-model-" ++ toString n_dims ++ "-" ++ toString batch_size
  let rest :=
    step .loadDataEv c.load_and_split_data fun d =>
    step (.mkDatasetEv d.train_df1 d.train_df2 d.train_target)
        (c.embedding_dataset d.train_df1 d.train_df2 d.train_target) fun train_dataset =>
    step (.mkDatasetEv d.val_df1 d.val_df2 d.val_target)
        (c.embedding_dataset d.val_df1 d.val_df2 d.val_target) fun val_dataset =>
    step (.mkDatasetEv d.test_df1 d.test_df2 d.test_target)
        (c.embedding_dataset d.test_df1 d.test_df2 d.test_target) fun test_dataset =>
    let sampler := StratifiedSampler.new d.train_target batch_size
    step (.mkLoaderEv train_dataset batch_size (some sampler))
        (c.data_loader train_dataset batch_size (some sampler)) fun train_loader =>
    step (.mkLoaderEv val_dataset batch_size none)
        (c.data_loader val_dataset batch_size none) fun val_loader =>
    step (.mkLoaderEv test_dataset batch_size none)
        (c.data_loader test_dataset batch_size none) fun test_loader =>
    step (.mkModelEv embedding_size n_dims dropout_fraction lr)
        (c.similarity_model embedding_size n_dims dropout_fraction lr) fun model =>
    let tail :=
      step (.fitEv 400 model train_loader val_loader)
          (c.fit 400 model train_loader val_loader) fun _ =>
      step (.testEv model test_loader) (c.test model test_loader) fun test_results =>
      match test_results with
      | [] => (.error "IndexError: list index out of range", [])
      | r0 :: _ =>
        ((match r0.lookup "test_f1" with
          | none => .error "KeyError: test_f1"
          | some v => .ok v), [.printKeysEv (r0.map Prod.fst)])
    (tail.1,
      .mkCheckpointEv "val_f1" 1 "max" ::
      .mkLoggerEv "tb_stratified" name ::
      .logHyperparamsEv
        [("embedding_size", .n embedding_size),
         ("dropout_fraction", .q dropout_fraction),
         ("batch_size", .n batch_size),
         ("lr", .q lr),
         ("n_dims", .n n_dims)] ::
      tail.2)
  (rest.1,
    .suggestIntEv "n_dims" (embedding_size / 2) (embedding_size * 3) true n_dims ::
    .suggestCatEv "batch_size" [32, 64, 128] batch_size ::
    .suggestFloatEv "lr" (1 / 100000) (1 / 1000) lr ::
    .printDict [("n_dims", .n n_dims), ("batch_size", .n batch_size), ("lr", .q lr)] ::
    rest.2)

/-- A fully successful set of deterministic test doubles for the external
collaborators, built from total functions. -/
def pureCollab (d : LoadedData) (eds : Nat → Nat → List Int → Nat)
    (dl : Nat → Nat → Option StratifiedSampler → Nat)
    (sm : Nat → Nat → ℚ → ℚ → Nat)
    (tf : Nat → Nat → List (List (String × ℚ))) : Collab where
  load_and_split_data := .ok d
  embedding_dataset a b t := .ok (eds a b t)
  data_loader a b s := .ok (dl a b s)
  similarity_model a b u v := .ok (sm a b u v)
  fit _ _ _ _ := .ok ()
  test m l := .ok (tf m l)

/-- The full event trace of a successful `objective` run against
`pureCollab` doubles whose test call returns `r0` first. -/
def pureTrace (t : Trial) (d : LoadedData) (eds : Nat → Nat → List Int → Nat)
    (dl : Nat → Nat → Option StratifiedSampler → Nat)
    (sm : Nat → Nat → ℚ → ℚ → Nat) (r0 : List (String × ℚ)) : List Event :=
  let n_dims := t.suggest_int "n_dims" 768 4608 true
  let batch_size := t.suggest_categorical "batch_size" [32, 64, 128]
  let lr := t.suggest_loguniform "lr" (1 / 100000) (1 / 1000)
  let sampler := StratifiedSampler.new d.train_target batch_size
  let train_dataset := eds d.train_df1 d.train_df2 d.train_target
  let val_dataset := eds d.val_df1 d.val_df2 d.val_target
  let test_dataset := eds d.test_df1 d.test_df2 d.test_target
  let train_loader := dl train_dataset batch_size (some sampler)
  let val_loader := dl val_dataset batch_size none
  let test_loader := dl test_dataset batch_size none
  let model := sm 1536 n_dims (1 / 2) lr
  [.suggestIntEv "n_dims" 768 4608 true n_dims,
   .suggestCatEv "batch_size" [32, 64, 128] batch_size,
   .suggestFloatEv "lr" (1 / 100000) (1 / 1000) lr,
   .printDict [("n_dims", .n n_dims), ("batch_size", .n batch_size), ("lr", .q lr)],
   .loadDataEv,
   .mkDatasetEv d.train_df1 d.train_df2 d.train_target,
   .mkDatasetEv d.val_df1 d.val_df2 d.val_target,
   .mkDatasetEv d.test_df1 d.test_df2 d.test_target,
   .mkLoaderEv train_dataset batch_size (some sampler),
   .mkLoaderEv val_dataset batch_size none,
   .mkLoaderEv test_dataset batch_size none,
   .mkModelEv 1536 n_dims (1 / 2) lr,
   .mkCheckpointEv "val_f1" 1 "max",
   .mkLoggerEv "tb_stratified"
     ("similarity-model-" ++ toString n_dims ++ "-" ++ toString batch_size),
   .logHyperparamsEv
     [("embedding_size", .n 1536), ("dropout_fraction", .q (1 / 2)),
      ("batch_size", .n batch_size), ("lr", .q lr), ("n_dims", .n n_dims)],
   .fitEv 400 model train_loader val_loader,
   .testEv model test_loader,
   .printKeysEv (r0.map Prod.fst)]

lemma objective_pure_eval (t : Trial) (d : LoadedData)
    (eds : Nat → Nat → List Int → Nat)
    (dl : Nat → Nat → Option StratifiedSampler → Nat)
    (sm : Nat → Nat → ℚ → ℚ → Nat)
    (r0 : List (String × ℚ)) (rest : List (List (String × ℚ))) :
    objective t (pureCollab d eds dl sm fun _ _ => r0 :: rest) =
      ((match r0.lookup "test_f1" with
        | none => Except.error "KeyError: test_f1"
        | some v => Except.ok v),
       pureTrace t d eds dl sm r0) :=
  rfl

/-- Whether an event is one of the trial's hyperparameter suggestions. -/
def Event.isSuggest : Event → Bool
  | .suggestIntEv _ _ _ _ _ => true
  | .suggestCatEv _ _ _ => true
  | .suggestFloatEv _ _ _ _ => true
  | _ => false

/-- The arguments of a model-construction event:
`(embedding_size, n_dims, dropout_fraction, lr)`. -/
def Event.modelArgs : Event → Option (Nat × Nat × ℚ × ℚ)
  | .mkModelEv e n dfr l => some (e, n, dfr, l)
  | _ => none

/-- A call into the external training engine. -/
inductive EngineCall where
  | fitCall (max_epochs : Nat)
  | testCall
deriving DecidableEq

/-- The training-engine call an event records, if any. -/
def Event.engineCall : Event → Option EngineCall
  | .fitEv me _ _ _ => some (.fitCall me)
  | .testEv _ _ => some .testCall
  | _ => none

/-- The dictionary printed to standard output by an event, if any. -/
def Event.printedDict : Event → Option (List (String × HPV))
  | .printDict d => some d
  | _ => none

/-- The mapping passed to the experiment logger by an event, if any. -/
def Event.loggedDict : Event → Option (List (String × HPV))
  | .logHyperparamsEv d => some d
  | _ => none

/-- C5: for every trial (and arbitrary collaborators), `objective` begins by
sampling `n_dims` as a log-uniform integer in `[1536 / 2, 1536 * 3] =
[768, 4608]`, `batch_size` from the categorical set `[32, 64, 128]` and `lr`
log-uniformly in `[1e-5, 1e-3]`; these are the only suggestion queries it
ever makes, and the model is then constructed with the non-searched constants
`embedding_size = 1536` and `dropout_fraction = 0.5` alongside the sampled
values. -/
theorem C5_sampling_space (t : Trial) (c : Collab) (d : LoadedData)
    (eds : Nat → Nat → List Int → Nat)
    (dl : Nat → Nat → Option StratifiedSampler → Nat)
    (sm : Nat → Nat → ℚ → ℚ → Nat)
    (r0 : List (String × ℚ)) (rest : List (List (String × ℚ))) :
    (objective t c).2.take 3 =
      [.suggestIntEv "n_dims" 768 4608 true (t.suggest_int "n_dims" 768 4608 true),
       .suggestCatEv "batch_size" [32, 64, 128]
         (t.suggest_categorical "batch_size" [32, 64, 128]),
       .suggestFloatEv "lr" (1 / 100000) (1 / 1000)
         (t.suggest_loguniform "lr" (1 / 100000) (1 / 1000))] ∧
    ((objective t (pureCollab d eds dl sm fun _ _ => r0 :: rest)).2.filter
        Event.isSuggest) =
      [.suggestIntEv "n_dims" 768 4608 true (t.suggest_int "n_dims" 768 4608 true),
       .suggestCatEv "batch_size" [32, 64, 128]
         (t.suggest_categorical "batch_size" [32, 64, 128]),
       .suggestFloatEv "lr" (1 / 100000) (1 / 1000)
         (t.suggest_loguniform "lr" (1 / 100000) (1 / 1000))] ∧
    ((objective t (pureCollab d eds dl sm fun _ _ => r0 :: rest)).2.filterMap
        Event.modelArgs) =
      [(1536, t.suggest_int "n_dims" 768 4608 true, 1 / 2,
        t.suggest_loguniform "lr" (1 / 100000) (1 / 1000))] :=
  ⟨rfl, rfl, rfl⟩

/-- C6: with deterministic test doubles for the collaborators, `objective`
invokes the training engine's `fit` exactly once, configured with
`max_epochs = 400`, then runs the held-out test evaluation exactly once, and
returns the float stored under `test_f1` in the first test-result mapping. -/
theorem C6_fit_once_then_test_once (t : Trial) (d : LoadedData)
    (eds : Nat → Nat → List Int → Nat)
    (dl : Nat → Nat → Option StratifiedSampler → Nat)
    (sm : Nat → Nat → ℚ → ℚ → Nat)
    (r0 : List (String × ℚ)) (rest : List (List (String × ℚ))) (v : ℚ)
    (hv : r0.lookup "test_f1" = some v) :
    (objective t (pureCollab d eds dl sm fun _ _ => r0 :: rest)).1 =
      Except.ok v ∧
    ((objective t (pureCollab d eds dl sm fun _ _ => r0 :: rest)).2.filterMap
        Event.engineCall) = [.fitCall 400, .testCall] := by
  refine ⟨?_, rfl⟩
  rw [objective_pure_eval, hv]

/-- Example deterministic trial double fixing `n_dims = 1536`,
`batch_size = 32`, `lr = 1e-4`. -/
def exTrial : Trial :=
  { suggest_int := fun _ _ _ _ => 1536
    suggest_categorical := fun _ _ => 32
    suggest_loguniform := fun _ _ _ => 1 / 10000 }

/-- Example loaded data: all data-frame handles zero, empty label vectors. -/
def exData : LoadedData :=
  ⟨0, 0, 0, 0, 0, 0, [], [], []⟩

/-- Witness for C6: a concrete trial and concrete doubles whose single test
result stores `test_f1 = 7/10`. -/
theorem C6_witness :
    (objective exTrial
        (pureCollab exData (fun _ _ _ => 0) (fun _ _ _ => 0) (fun _ _ _ _ => 0)
          fun _ _ => [[("test_f1", (7 : ℚ) / 10)]])).1 =
      Except.ok ((7 : ℚ) / 10) ∧
    ((objective exTrial
        (pureCollab exData (fun _ _ _ => 0) (fun _ _ _ => 0) (fun _ _ _ _ => 0)
          fun _ _ => [[("test_f1", (7 : ℚ) / 10)]])).2.filterMap
        Event.engineCall) = [.fitCall 400, .testCall] :=
  C6_fit_once_then_test_once exTrial exData
    (fun _ _ _ => 0) (fun _ _ _ => 0) (fun _ _ _ _ => 0)
    [("test_f1", (7 : ℚ) / 10)] [] ((7 : ℚ) / 10) rfl

/-- C10: the hyperparameter dictionary printed to standard output carries
exactly the three sampled keys, in source order, while the mapping passed to
the experiment logger carries exactly the five keys including the fixed
constants. -/
theorem C10_printed_vs_logged_keys (t : Trial) (d : LoadedData)
    (eds : Nat → Nat → List Int → Nat)
    (dl : Nat → Nat → Option StratifiedSampler → Nat)
    (sm : Nat → Nat → ℚ → ℚ → Nat)
    (r0 : List (String × ℚ)) (rest : List (List (String × ℚ))) :
    (((objective t (pureCollab d eds dl sm fun _ _ => r0 :: rest)).2.filterMap
        Event.printedDict).map fun l => l.map Prod.fst) =
      [["n_dims", "batch_size", "lr"]] ∧
    (((objective t (pureCollab d eds dl sm fun _ _ => r0 :: rest)).2.filterMap
        Event.loggedDict).map fun l => l.map Prod.fst) =
      [["embedding_size", "dropout_fraction", "batch_size", "lr", "n_dims"]] :=
  ⟨rfl, rfl⟩

/-- Counterexample collaborators for C8: every step succeeds, and the single
test-result mapping is empty (it lacks the key `test_f1`). -/
def exCollabNoF1 : Collab :=
  pureCollab exData (fun _ _ _ => 0) (fun _ _ _ => 0) (fun _ _ _ _ => 0)
    fun _ _ => [[]]

/-- CounterexampleC8: the claim's parenthetical "it raises if and only if a
collaborator step raises" is false: with collaborators that all succeed but
whose first test-result mapping lacks the key `test_f1`, `objective` raises a
`KeyError` of its own while every collaborator step (at the arguments the run
passes) returns successfully. -/
theorem C8_counterexample :
    (objective exTrial exCollabNoF1).1 = Except.error "KeyError: test_f1" ∧
    exCollabNoF1.load_and_split_data = Except.ok exData ∧
    exCollabNoF1.embedding_dataset 0 0 [] = Except.ok 0 ∧
    exCollabNoF1.data_loader 0 32 (some (StratifiedSampler.new [] 32)) =
      Except.ok 0 ∧
    exCollabNoF1.data_loader 0 32 none = Except.ok 0 ∧
    exCollabNoF1.similarity_model 1536 1536 (1 / 2) (1 / 10000) = Except.ok 0 ∧
    exCollabNoF1.fit 400 0 0 0 = Except.ok () ∧
    exCollabNoF1.test 0 0 = Except.ok [[]] :=
  ⟨rfl, rfl, rfl, rfl, rfl, rfl, rfl, rfl⟩

/-- C8 (amended): `objective` performs no error handling — a fault raised by
any collaborator step (data loading, dataset construction, loader
construction, model construction, training, test evaluation) propagates
uncaught and unchanged out of `objective`; when every step succeeds and the
first test-result mapping holds `test_f1`, no fault is introduced. (A raise
does not, however, imply a collaborator raised: see `C8_counterexample`.) -/
theorem C8_faults_propagate_uncaught (t : Trial) (d : LoadedData)
    (eds : Nat → Nat → List Int → Nat)
    (dl : Nat → Nat → Option StratifiedSampler → Nat)
    (sm : Nat → Nat → ℚ → ℚ → Nat)
    (tf : Nat → Nat → List (List (String × ℚ)))
    (f : Fault) (r0 : List (String × ℚ)) (rest : List (List (String × ℚ)))
    (v : ℚ) (hv : r0.lookup "test_f1" = some v) :
    (objective t { pureCollab d eds dl sm tf with
        load_and_split_data := Except.error f }).1 = Except.error f ∧
    (objective t { pureCollab d eds dl sm tf with
        embedding_dataset := fun _ _ _ => Except.error f }).1 = Except.error f ∧
    (objective t { pureCollab d eds dl sm tf with
        data_loader := fun _ _ _ => Except.error f }).1 = Except.error f ∧
    (objective t { pureCollab d eds dl sm tf with
        similarity_model := fun _ _ _ _ => Except.error f }).1 = Except.error f ∧
    (objective t { pureCollab d eds dl sm tf with
        fit := fun _ _ _ _ => Except.error f }).1 = Except.error f ∧
    (objective t { pureCollab d eds dl sm tf with
        test := fun _ _ => Except.error f }).1 = Except.error f ∧
    (objective t (pureCollab d eds dl sm fun _ _ => r0 :: rest)).1 =
      Except.ok v := by
  refine ⟨rfl, rfl, rfl, rfl, rfl, rfl, ?_⟩
  rw [objective_pure_eval, hv]

/-- Witness for C8 (amended): concrete doubles, fault message and test
result. -/
theorem C8_witness :
    (objective exTrial { pureCollab exData (fun _ _ _ => 0) (fun _ _ _ => 0)
        (fun _ _ _ _ => 0) (fun _ _ => [[]]) with
        load_and_split_data := Except.error "boom" }).1 =
      Except.error "boom" ∧
    (objective exTrial { pureCollab exData (fun _ _ _ => 0) (fun _ _ _ => 0)
        (fun _ _ _ _ => 0) (fun _ _ => [[]]) with
        embedding_dataset := fun _ _ _ => Except.error "boom" }).1 =
      Except.error "boom" ∧
    (objective exTrial { pureCollab exData (fun _ _ _ => 0) (fun _ _ _ => 0)
        (fun _ _ _ _ => 0) (fun _ _ => [[]]) with
        data_loader := fun _ _ _ => Except.error "boom" }).1 =
      Except.error "boom" ∧
    (objective exTrial { pureCollab exData (fun _ _ _ => 0) (fun _ _ _ => 0)
        (fun _ _ _ _ => 0) (fun _ _ => [[]]) with
        similarity_model := fun _ _ _ _ => Except.error "boom" }).1 =
      Except.error "boom" ∧
    (objective exTrial { pureCollab exData (fun _ _ _ => 0) (fun _ _ _ => 0)
        (fun _ _ _ _ => 0) (fun _ _ => [[]]) with
        fit := fun _ _ _ _ => Except.error "boom" }).1 =
      Except.error "boom" ∧
    (objective exTrial { pureCollab exData (fun _ _ _ => 0) (fun _ _ _ => 0)
        (fun _ _ _ _ => 0) (fun _ _ => [[]]) with
        test := fun _ _ => Except.error "boom" }).1 =
      Except.error "boom" ∧
    (objective exTrial (pureCollab exData (fun _ _ _ => 0) (fun _ _ _ => 0)
        (fun _ _ _ _ => 0) fun _ _ => [[("test_f1", (7 : ℚ) / 10)]])).1 =
      Except.ok ((7 : ℚ) / 10) :=
  C8_faults_propagate_uncaught exTrial exData
    (fun _ _ _ => 0) (fun _ _ _ => 0) (fun _ _ _ _ => 0) (fun _ _ => [[]])
    "boom" [("test_f1", (7 : ℚ) / 10)] [] ((7 : ℚ) / 10) rfl

/-- One finished trial as the search driver records it: its objective value
and its sampled-parameter mapping. -/
structure FinishedTrial where
  value : ℚ
  params : List (String × HPV)
deriving DecidableEq

/-- The parameter mapping of a trial, recovered from its suggestion events
(name and sampled value of each suggestion the trial answered). -/
def trialParams (tr : List Event) : List (String × HPV) :=
  tr.filterMap fun e =>
    match e with
    | .suggestIntEv name _ _ _ r => some (name, .n r)
    | .suggestCatEv name _ r => some (name, .n r)
    | .suggestFloatEv name _ _ r => some (name, .q r)
    | _ => none

/-- The search direction of a study. -/
inductive Direction where
  | minimize
  | maximize
deriving DecidableEq

/-- An Optuna study: its direction and its finished-trial history. -/
structure Study where
  direction : Direction
  trials : List FinishedTrial
deriving DecidableEq

/-- Modelled from the spec: `optuna.create_study(direction=...)` — a fresh
study with an empty trial history (the Optuna library is an external
collaborator, not part of the repository sources). -/
def create_study (direction : Direction) : Study :=
  { direction := direction, trials := [] }

/-- Modelled from the spec: the driver runs the objective once per trial,
sequentially and in order, with no early stopping across trials; an uncaught
trial fault aborts the whole run. -/
def runTrialList (c : Collab) : List Trial → Except Fault (List FinishedTrial)
  | [] => .ok []
  | t :: ts =>
    match objective t c with
    | (.ok v, tr) =>
      match runTrialList c ts with
      | .ok l => .ok ({ value := v, params := trialParams tr } :: l)
      | .error f => .error f
    | (.error f, _) => .error f

/-- Modelled from the spec: `n_trials` sequential trials, numbered
`0, 1, …, n_trials - 1`. -/
def runTrials (ts : Nat → Trial) (c : Collab) (n_trials : Nat) :
    Except Fault (List FinishedTrial) :=
  runTrialList c ((List.range n_trials).map ts)

/-- Modelled from the spec: `study.optimize(objective, n_trials)` appends the
finished trials to the study's history. -/
def Study.optimize (st : Study) (ts : Nat → Trial) (c : Collab)
    (n_trials : Nat) : Except Fault Study :=
  match runTrials ts c n_trials with
  | .ok l => .ok { direction := st.direction, trials := st.trials ++ l }
  | .error f => .error f

/-- Modelled from the spec: `study.best_trial` under the maximize direction —
the earliest trial of maximal value, `none` on an empty history. -/
def bestTrial : List FinishedTrial → Option FinishedTrial
  | [] => none
  | t :: l => some (l.foldl (fun b x => if b.value < x.value then x else b) t)

/-- One item printed to standard output by the driver's final report. -/
inductive OutItem where
  | trialCount (n : Nat)
  | bestValue (v : ℚ)
  | bestParams (ps : List (String × HPV))
deriving DecidableEq

/-- The module-level driver (main.py lines 162-170): create a study in the
maximize direction, optimize the objective for exactly 20 trials, then print
the total number of finished trials and the best trial's value and parameter
mapping. -/
def runSearch (ts : Nat → Trial) (c : Collab) :
    Except Fault (Study × List OutItem) :=
  match (create_study .maximize).optimize ts c 20 with
  | .error f => .error f
  | .ok st =>
    match bestTrial st.trials with
    | none => .error "ValueError: no trials are completed yet"
    | some bt =>
      .ok (st, [.trialCount st.trials.length, .bestValue bt.value,
        .bestParams bt.params])

lemma runTrialList_pure (d : LoadedData) (eds : Nat → Nat → List Int → Nat)
    (dl : Nat → Nat → Option StratifiedSampler → Nat)
    (sm : Nat → Nat → ℚ → ℚ → Nat)
    (r0 : List (String × ℚ)) (rest : List (List (String × ℚ))) (v : ℚ)
    (hv : r0.lookup "test_f1" = some v) (l : List Trial) :
    runTrialList (pureCollab d eds dl sm fun _ _ => r0 :: rest) l =
      .ok (l.map fun t =>
        { value := v, params := trialParams (pureTrace t d eds dl sm r0) }) := by
  induction l with
  | nil => rfl
  | cons t ts ih =>
    simp [runTrialList, objective_pure_eval, hv, ih]

lemma bestFold_const (l : List FinishedTrial) (t : FinishedTrial)
    (h : ∀ x ∈ l, x.value = t.value) :
    l.foldl (fun b x => if b.value < x.value then x else b) t = t := by
  induction l with
  | nil => rfl
  | cons a l ih =>
    rw [List.foldl_cons]
    have ha : (if t.value < a.value then a else t) = t := by
      rw [h a (List.mem_cons_self a l)]
      simp
    rw [ha]
    exact ih fun x hx => h x (List.mem_cons_of_mem a hx)

lemma bestTrial_cons (t : FinishedTrial) (l : List FinishedTrial)
    (h : ∀ x ∈ l, x.value = t.value) : bestTrial (t :: l) = some t := by
  show some (l.foldl (fun b x => if b.value < x.value then x else b) t) = some t
  rw [bestFold_const l t h]

/-- C7: the search driver runs exactly 20 trials in the maximize direction
with no early stopping across trials, and after the study completes the final
report printed to standard output is the total number of finished trials
followed by the best trial's objective value and parameter mapping. -/
theorem C7_study_twenty_trials_and_report (ts : Nat → Trial) (d : LoadedData)
    (eds : Nat → Nat → List Int → Nat)
    (dl : Nat → Nat → Option StratifiedSampler → Nat)
    (sm : Nat → Nat → ℚ → ℚ → Nat)
    (r0 : List (String × ℚ)) (rest : List (List (String × ℚ))) (v : ℚ)
    (hv : r0.lookup "test_f1" = some v) :
    ∃ st bt,
      runSearch ts (pureCollab d eds dl sm fun _ _ => r0 :: rest) =
        Except.ok (st, [OutItem.trialCount 20, OutItem.bestValue bt.value,
          OutItem.bestParams bt.params]) ∧
      st.direction = Direction.maximize ∧
      st.trials.length = 20 ∧
      bestTrial st.trials = some bt ∧
      bt.value = v := by
  have hbest : bestTrial (((List.range 20).map ts).map fun t =>
      ({ value := v, params := trialParams (pureTrace t d eds dl sm r0) } :
        FinishedTrial)) =
      some { value := v, params := trialParams (pureTrace (ts 0) d eds dl sm r0) } := by
    have hr : (List.range 20).map ts =
        ts 0 :: ([1, 2, 3, 4, 5, 6, 7, 8, 9, 10, 11, 12, 13, 14, 15, 16, 17,
          18, 19].map ts) := rfl
    rw [hr, List.map_cons]
    refine bestTrial_cons _ _ ?_
    intro x hx
    rcases List.mem_map.mp hx with ⟨b, _, rfl⟩
    rfl
  have hlen : ((((List.range 20).map ts).map fun t =>
      ({ value := v, params := trialParams (pureTrace t d eds dl sm r0) } :
        FinishedTrial))).length = 20 := by
    simp
  have hrt : runTrials ts (pureCollab d eds dl sm fun _ _ => r0 :: rest) 20 =
      .ok (((List.range 20).map ts).map fun t =>
        { value := v, params := trialParams (pureTrace t d eds dl sm r0) }) :=
    runTrialList_pure d eds dl sm r0 rest v hv _
  have hopt : (create_study .maximize).optimize ts
      (pureCollab d eds dl sm fun _ _ => r0 :: rest) 20 =
      .ok ⟨.maximize, ((List.range 20).map ts).map fun t =>
        { value := v, params := trialParams (pureTrace t d eds dl sm r0) }⟩ := by
    unfold Study.optimize
    rw [hrt]
    simp [create_study]
  refine ⟨⟨.maximize, ((List.range 20).map ts).map fun t =>
      { value := v, params := trialParams (pureTrace t d eds dl sm r0) }⟩,
    { value := v, params := trialParams (pureTrace (ts 0) d eds dl sm r0) },
    ?_, rfl, hlen, hbest, rfl⟩
  unfold runSearch
  rw [hopt]
  simp only [hbest, hlen]

/-- Witness for C7: the concrete trial stream and doubles of the C6 witness. -/
theorem C7_witness :
    ∃ st bt,
      runSearch (fun _ => exTrial)
          (pureCollab exData (fun _ _ _ => 0) (fun _ _ _ => 0)
            (fun _ _ _ _ => 0) fun _ _ => [[("test_f1", (7 : ℚ) / 10)]]) =
        Except.ok (st, [OutItem.trialCount 20, OutItem.bestValue bt.value,
          OutItem.bestParams bt.params]) ∧
      st.direction = Direction.maximize ∧
      st.trials.length = 20 ∧
      bestTrial st.trials = some bt ∧
      bt.value = (7 : ℚ) / 10 :=
  C7_study_twenty_trials_and_report (fun _ => exTrial) exData
    (fun _ _ _ => 0) (fun _ _ _ => 0) (fun _ _ _ _ => 0)
    [("test_f1", (7 : ℚ) / 10)] [] ((7 : ℚ) / 10) rfl

/-- Witness for C9: a single-label vector with batch size 1 (`N = 1 < 2`)
and a routine yielding no split. -/
theorem C9_witness :
    (StratifiedSampler.new [0] 1).n_splits = ([0] : List Int).length / 1 ∧
    (StratifiedSampler.new [0] 1).n_splits ≤ 1 ∧
    (StratifiedSampler.new [0] 1).iterate (fun _ _ => []) =
      firstSplitConcat ((fun _ _ => ([] : List SSSplit))
        (([0] : List Int).length / 1) [0]) ∧
    ((fun _ _ => ([] : List SSSplit)) (([0] : List Int).length / 1) [0] = [] →
      (StratifiedSampler.new [0] 1).iterate (fun _ _ => []) = none) :=
  C9_degenerate_n_splits_unguarded [0] 1 (fun _ _ => []) (by decide) (by decide)
